import Mathlib

/-!
Verification of the Shrimp-Shop traceability core: a shallow embedding of the
identifier generator (`ShrimpProduct.save`, `ProductPackage.save`), the
inventory ledger and package lifecycle (`CreatePackageView.post`), and the QR
artifact layer (`ProductPackage.generate_qr_code`), with theorems settling the
spec's claims about them.

Weights and prices (Django `DecimalField`s) are modelled as exact rationals;
dates as integers counting days; a 128-bit random identifier as a `Nat`.
-/

namespace ShrimpShop

/-! ## Identifier generation

`uuid.uuid4().hex` is the 32-digit lowercase hexadecimal rendering of the
128-bit identifier, most significant digit first; `str(uuid.uuid4())` is the
canonical hyphenated form (8-4-4-4-12 groups of those same digits).
-/

/-- The 32 lowercase hex digits of a 128-bit identifier (`uuid4().hex`). -/
def uuidHexChars (u : Nat) : List Char :=
  (List.range 32).map fun i => Nat.digitChar (u / 16 ^ (31 - i) % 16)

/-- The canonical hyphenated rendering (`str(uuid4())`): 8-4-4-4-12. -/
def uuidStrChars (u : Nat) : List Char :=
  (uuidHexChars u).take 8 ++ '-' ::
    ((uuidHexChars u).drop 8).take 4 ++ '-' ::
    ((uuidHexChars u).drop 12).take 4 ++ '-' ::
    ((uuidHexChars u).drop 16).take 4 ++ '-' ::
    (uuidHexChars u).drop 20

/-- `str(uuid.uuid4())[:8].upper()` — the support code minted by
`ShrimpProduct.save` (src/shrimp_panel/models.py line 62). -/
def supportCodeOf (u : Nat) : String :=
  String.mk (((uuidStrChars u).take 8).map Char.toUpper)

/-- `f"BATCH-{uuid.uuid4().hex[:10].upper()}"` — the batch number minted by
`ProductPackage.save` (src/export_panel/models.py line 102). -/
def batchNumberOf (u : Nat) : String :=
  "BATCH-" ++ String.mk (((uuidHexChars u).take 10).map Char.toUpper)

/-! ## Data model -/

/-- `ShrimpProduct` (src/shrimp_panel/models.py): the fields the core touches.
`weight` is the available weight in kilograms. -/
structure Product where
  product_name : String
  weight : ℚ
  shrimp_type : String
  price : ℚ
  support_code : String
  deriving Repr, DecidableEq

/-- `ProductPackage` (src/export_panel/models.py): the fields the core touches.
Dates are `Option` so that the `save`-time defaulting branches
(`if not self.production_date`, `if not self.expiration_date`) are visible;
`qr_code` holds the artifact's payload when the artifact exists. -/
structure Package where
  package_weight : ℚ
  quantity : ℤ
  production_date : Option ℤ
  expiration_date : Option ℤ
  batch_number : String
  qr_code : Option String
  deriving Repr, DecidableEq

/-- `total_weight` as computed in `generate_qr_code`:
`self.package_weight * self.quantity`. -/
def totalWeight (pkg : Package) : ℚ :=
  pkg.package_weight * pkg.quantity

/-- The traceability payload built by `ProductPackage.generate_qr_code`
(src/export_panel/models.py lines 123-136), restricted to the modelled
fields: a fixed-order text block determined by the package's state. -/
def qrPayload (pkg : Package) : String :=
  String.intercalate "\n"
    [ pkg.batch_number
    , toString pkg.package_weight
    , toString pkg.quantity
    , toString (totalWeight pkg)
    , toString (pkg.production_date.getD 0)
    , toString (pkg.expiration_date.getD 0) ]

/-- `ProductPackage.generate_qr_code` (src/export_panel/models.py lines
116-161): renders the payload and persists it with
`super().save(update_fields=['qr_code'])`, so only `qr_code` changes. -/
def generate_qr_code (pkg : Package) : Package :=
  { pkg with qr_code := some (qrPayload pkg) }

/-- `default_expiration_date` (src/export_panel/models.py lines 20-24):
`timezone.now().date() + timedelta(days=365)` — a function of the clock at
evaluation time, not of the production date. -/
def default_expiration_date (today : ℤ) : ℤ :=
  today + 365

/-- Constructing a `ProductPackage` instance: Django applies the field
defaults (`production_date` default `timezone.now`, `expiration_date` default
`default_expiration_date`) for every field the caller omits (`none`). -/
def mkPackage (today : ℤ) (pw : ℚ) (qty : ℤ)
    (production? expiration? : Option ℤ) : Package :=
  { package_weight := pw
    quantity := qty
    production_date := some (production?.getD today)
    expiration_date := some (expiration?.getD (default_expiration_date today))
    batch_number := ""
    qr_code := none }

/-- `ProductPackage.save` (src/export_panel/models.py lines 93-114): assign a
batch number if missing, default missing dates, persist, then generate the QR
artifact only if absent. -/
def packageSave (pkg : Package) (today : ℤ) (u : Nat) : Package :=
  let p1 := if pkg.batch_number = "" then
      { pkg with batch_number := batchNumberOf u } else pkg
  let p2 := if p1.production_date = none then
      { p1 with production_date := some today } else p1
  let p3 := if p2.expiration_date = none then
      { p2 with expiration_date := some (p2.production_date.getD today + 365) } else p2
  if p3.qr_code = none then generate_qr_code p3 else p3

/-! ## Product save (support-code minting) -/

inductive SaveError where
  | duplicateIdentifier
  deriving Repr, DecidableEq

/-- `ShrimpProduct.save` (src/shrimp_panel/models.py lines 56-63): mint the
support code from a single random draw if missing, then insert; `existing` are
the support codes already in the table, and the `unique=True` constraint makes
a colliding insert fail (the error propagates to the caller — the code has no
uniqueness pre-check and no retry). -/
def productSave (existing : List String) (p : Product) (u : Nat) :
    Except SaveError Product :=
  let p' := if p.support_code = "" then
      { p with support_code := supportCodeOf u } else p
  if p'.support_code ∈ existing then .error .duplicateIdentifier
  else .ok p'

/-! ## Package lifecycle (CreatePackageView.post) -/

inductive CreateError where
  /-- `package_weight <= 0 or package_count <= 0` (views.py line 194). -/
  | invalidQuantity
  /-- `total_weight_needed > shrimp_product.weight` (views.py line 201);
  carries the available weight reported back to the caller. -/
  | insufficientStock (available : ℚ)
  /-- the `unique=True` constraint on `batch_number` rejected the insert;
  the enclosing `transaction.atomic` rolls everything back. -/
  | duplicateBatch
  /-- QR rendering or persistence raised inside the `transaction.atomic`
  block; the whole creation is rolled back and the generic handler at
  views.py line 250 reports the error. -/
  | artifactFailed
  deriving Repr, DecidableEq

/-- The persistent state the creation path touches: the target product's row
and the package table. -/
structure DB where
  product : Product
  packages : List Package
  deriving Repr, DecidableEq

/-- `CreatePackageView.post` (src/export_panel/views.py lines 178-253) for a
resolved product and parsed inputs. `today` is the request-time clock, `u` the
random draw for the batch number, and `qrOk` whether QR rendering succeeds.
The `transaction.atomic` block (lines 210-224) contains `objects.create` —
which runs `ProductPackage.save`, hence batch minting AND QR generation — and
the weight deduction; any failure inside it leaves the database unchanged. -/
def createPackageView (db : DB) (pw : ℚ) (pc : ℤ) (today : ℤ) (u : Nat)
    (qrOk : Bool) : Except CreateError Package × DB :=
  if pw ≤ 0 ∨ pc ≤ 0 then (.error .invalidQuantity, db)
  else
    let total := pw * (pc : ℚ)
    if total > db.product.weight then
      (.error (.insufficientStock db.product.weight), db)
    else
      let pkg := packageSave
        (mkPackage today pw pc (some today) (some (today + 365))) today u
      if pkg.batch_number ∈ db.packages.map Package.batch_number then
        (.error .duplicateBatch, db)
      else if qrOk = false then (.error .artifactFailed, db)
      else
        (.ok pkg,
          { product := { db.product with weight := db.product.weight - total }
            packages := pkg :: db.packages })

/-- A sequence of package creations against one product, all required to
succeed (`none` if any fails); returns the final state and the created
packages, oldest first. -/
def runCreates (db : DB) : List (ℚ × ℤ × ℤ × Nat) → Option (DB × List Package)
  | [] => some (db, [])
  | (pw, pc, today, u) :: rest =>
    match createPackageView db pw pc today u true with
    | (.ok pkg, db') =>
      (runCreates db' rest).map fun r => (r.1, pkg :: r.2)
    | (.error _, _) => none

/-! ## Two concurrent creation requests

Each request of `CreatePackageView.post` performs two separate steps against
the shared product row: `ShrimpProduct.objects.get` (line 198) reads the
weight into request-local state, and the later `transaction.atomic` block
checks against THAT local copy (the comparison at line 201 and the decrement
at line 223 both use the value read at line 198 — there is no
`select_for_update` and no re-read) and writes `localWeight - total` back.
The model makes the read one atomic event and the entire
check-create-deduct-commit another. -/

structure RaceState where
  /-- the shared `ShrimpProduct.weight` column. -/
  weight : ℚ
  /-- request 0's local copy of the weight, once it has executed its read. -/
  local0 : Option ℚ
  local1 : Option ℚ
  /-- request 0's outcome: `some true` = package committed,
  `some false` = failed with InsufficientStock. -/
  done0 : Option Bool
  done1 : Option Bool
  /-- total weights of the packages committed so far. -/
  deducted : List ℚ
  deriving Repr, DecidableEq

inductive RaceEv where
  | read0 | read1 | commit0 | commit1
  deriving Repr, DecidableEq

/-- One scheduler step: `read i` executes line 198 for request `i`;
`commit i` executes the check (line 201) against the local copy and, on
success, the atomic create-and-deduct (lines 210-224), writing
`local - total` to the shared row. `t0`, `t1` are the two requests'
`total_weight_needed`. -/
def raceStep (t0 t1 : ℚ) (s : RaceState) : RaceEv → RaceState
  | .read0 => { s with local0 := some s.weight }
  | .read1 => { s with local1 := some s.weight }
  | .commit0 =>
    match s.local0 with
    | none => s
    | some w =>
      if t0 > w then { s with done0 := some false }
      else { s with weight := w - t0, done0 := some true,
                    deducted := t0 :: s.deducted }
  | .commit1 =>
    match s.local1 with
    | none => s
    | some w =>
      if t1 > w then { s with done1 := some false }
      else { s with weight := w - t1, done1 := some true,
                    deducted := t1 :: s.deducted }

/-- Run a schedule of events over the two requests. -/
def runRace (t0 t1 : ℚ) (init : ℚ) (sched : List RaceEv) : RaceState :=
  sched.foldl (raceStep t0 t1)
    { weight := init, local0 := none, local1 := none,
      done0 := none, done1 := none, deducted := [] }

/-! ## Product edit -/

/-- `EditProductView.post` (src/shrimp_panel/views.py lines 148-154): writes
the submitted name, weight and price onto the product with no validation. -/
def editProduct (p : Product) (name : String) (w price : ℚ) : Product :=
  { p with product_name := name, weight := w, price := price }

/-- The administrative "regenerate QR" action: re-run `generate_qr_code` on
the package with the given batch number; no other row is touched. -/
def regenerateQr (db : DB) (b : String) : DB :=
  { db with packages := db.packages.map fun p =>
      if p.batch_number = b then generate_qr_code p else p }

/-! ## Character alphabets -/

/-- The sixteen uppercase hexadecimal digits. -/
def hexUpperChars : List Char :=
  ['0', '1', '2', '3', '4', '5', '6', '7', '8', '9', 'A', 'B', 'C', 'D', 'E', 'F']

/-- Uppercase alphanumeric: the alphabet `[A-Z0-9]` of the spec's batch-number
format. -/
def isUpperAlnum (c : Char) : Prop :=
  ('0' ≤ c ∧ c ≤ '9') ∨ ('A' ≤ c ∧ c ≤ 'Z')

instance (c : Char) : Decidable (isUpperAlnum c) := by
  unfold isUpperAlnum; infer_instance

/-! ## Concrete demonstration objects -/

def demoProduct : Product :=
  { product_name := "P", weight := 100, shrimp_type := "T", price := 1,
    support_code := "SC" }

def demoDB : DB := { product := demoProduct, packages := [] }

/-- The package the creation view builds from `demoDB` with unit weight 5,
count 10, clock 0 and random draw 0. -/
def demoPkg : Package :=
  packageSave (mkPackage 0 5 10 (some 0) (some 365)) 0 0

def demoDB2 : DB :=
  { product := { demoProduct with weight := 50 }, packages := [demoPkg] }

/-- The interleaving in which both requests read the product's weight before
either commits. -/
def staleInterleaving : List RaceEv := [.read0, .read1, .commit0, .commit1]

/-- A product about to be inserted, with no support code set yet. -/
def demoNewProduct : Product :=
  { product_name := "N", weight := 1, shrimp_type := "T", price := 1,
    support_code := "" }

/-! ## Helper lemmas -/

lemma packageSave_batch_number (pkg : Package) (today : ℤ) (u : Nat) :
    (packageSave pkg today u).batch_number =
      if pkg.batch_number = "" then batchNumberOf u else pkg.batch_number := by
  obtain ⟨pw, q, pd, ed, bn, qr⟩ := pkg
  by_cases hb : bn = "" <;> cases pd <;> cases ed <;> cases qr <;>
    simp [packageSave, generate_qr_code, hb]

lemma packageSave_package_weight (pkg : Package) (today : ℤ) (u : Nat) :
    (packageSave pkg today u).package_weight = pkg.package_weight := by
  obtain ⟨pw, q, pd, ed, bn, qr⟩ := pkg
  by_cases hb : bn = "" <;> cases pd <;> cases ed <;> cases qr <;>
    simp [packageSave, generate_qr_code, hb]

lemma packageSave_quantity (pkg : Package) (today : ℤ) (u : Nat) :
    (packageSave pkg today u).quantity = pkg.quantity := by
  obtain ⟨pw, q, pd, ed, bn, qr⟩ := pkg
  by_cases hb : bn = "" <;> cases pd <;> cases ed <;> cases qr <;>
    simp [packageSave, generate_qr_code, hb]

lemma packageSave_qr_of_some (pkg : Package) (today : ℤ) (u : Nat)
    (h : pkg.qr_code ≠ none) :
    (packageSave pkg today u).qr_code = pkg.qr_code := by
  obtain ⟨pw, q, pd, ed, bn, qr⟩ := pkg
  cases qr with
  | none => simp at h
  | some a =>
    by_cases hb : bn = "" <;> cases pd <;> cases ed <;>
      simp [packageSave, generate_qr_code, hb]

lemma mkPkg_dates (today : ℤ) (pw : ℚ) (q : ℤ) (u : Nat) :
    (packageSave (mkPackage today pw q none none) today u).production_date = some today ∧
    (packageSave (mkPackage today pw q none none) today u).expiration_date = some (today + 365) := by
  simp [packageSave, mkPackage, generate_qr_code, default_expiration_date]

lemma mkPkg_dates2 (today d : ℤ) (pw : ℚ) (q : ℤ) (u : Nat) :
    (packageSave (mkPackage today pw q (some d) none) today u).expiration_date
      = some (default_expiration_date today) := by
  simp [packageSave, mkPackage, generate_qr_code, default_expiration_date]

lemma demo_create_eq : createPackageView demoDB 5 10 0 0 true = (.ok demoPkg, demoDB2) := by
  simp only [createPackageView, demoDB, demoDB2, demoProduct, demoPkg]
  norm_num



lemma length_uuidHexChars (u : Nat) : (uuidHexChars u).length = 32 := by
  simp [uuidHexChars]

lemma take8_uuidStrChars (u : Nat) :
    (uuidStrChars u).take 8 = (uuidHexChars u).take 8 := by
  unfold uuidStrChars
  simp [List.take_append_eq_append_take, length_uuidHexChars, List.take_take]


lemma digitChar_toUpper_mem : ∀ m : Nat, m < 16 → (Nat.digitChar m).toUpper ∈ hexUpperChars := by
  decide

lemma mem_uuidHexChars {u : Nat} {c : Char} (h : c ∈ uuidHexChars u) :
    c.toUpper ∈ hexUpperChars := by
  unfold uuidHexChars at h
  rw [List.mem_map] at h
  obtain ⟨i, _, rfl⟩ := h
  exact digitChar_toUpper_mem _ (Nat.mod_lt _ (by norm_num))

lemma supportCodeOf_chars {u : Nat} {c : Char} (h : c ∈ (supportCodeOf u).data) :
    c ∈ hexUpperChars := by
  unfold supportCodeOf at h
  simp only [String.data] at h
  rw [take8_uuidStrChars, List.mem_map] at h
  obtain ⟨d, hd, rfl⟩ := h
  exact mem_uuidHexChars (List.take_subset _ _ hd)

lemma batchNumberOf_suffix_chars {u : Nat} {c : Char}
    (h : c ∈ ((uuidHexChars u).take 10).map Char.toUpper) :
    c ∈ hexUpperChars := by
  rw [List.mem_map] at h
  obtain ⟨d, hd, rfl⟩ := h
  exact mem_uuidHexChars (List.take_subset _ _ hd)

lemma hexUpper_upperAlnum : ∀ c ∈ hexUpperChars, isUpperAlnum c := by decide

lemma hexUpper_not_GZ : ∀ c ∈ hexUpperChars, ¬('G' ≤ c ∧ c ≤ 'Z') := by decide

lemma batchNumberOf_suffix_length (u : Nat) :
    (((uuidHexChars u).take 10).map Char.toUpper).length = 10 := by
  simp [length_uuidHexChars]


/-! ## Claims -/

/-- Claim C1: the package-creation contract. Non-positive unit weight or
count fails with InvalidQuantity with storage untouched; if the exact total
`unitWeight * count` exceeds the available weight it fails with
InsufficientStock reporting the current available weight, leaving the
product unmodified and creating no package; otherwise it succeeds, creates
exactly one package and decrements the available weight by exactly the
total. -/
theorem claim_C1_create_contract (db : DB) (pw : ℚ) (pc today : ℤ) (u : Nat)
    (hu : batchNumberOf u ∉ db.packages.map Package.batch_number) :
    (pw ≤ 0 ∨ pc ≤ 0 →
      createPackageView db pw pc today u true = (.error .invalidQuantity, db)) ∧
    (0 < pw → 0 < pc → db.product.weight < pw * (pc : ℚ) →
      createPackageView db pw pc today u true =
        (.error (.insufficientStock db.product.weight), db)) ∧
    (0 < pw → 0 < pc → pw * (pc : ℚ) ≤ db.product.weight →
      ∃ pkg, createPackageView db pw pc today u true =
          (.ok pkg,
            { product := { db.product with weight := db.product.weight - pw * (pc : ℚ) }
              packages := pkg :: db.packages }) ∧
        totalWeight pkg = pw * (pc : ℚ)) := by
  refine ⟨?_, ?_, ?_⟩
  · intro h
    simp [createPackageView, h]
  · intro h1 h2 h3
    have hq : ¬(pw ≤ 0 ∨ pc ≤ 0) := by
      push_neg
      exact ⟨h1, by exact_mod_cast h2⟩
    simp only [createPackageView]
    rw [if_neg hq, if_pos h3]
  · intro h1 h2 h3
    have hq : ¬(pw ≤ 0 ∨ pc ≤ 0) := by
      push_neg
      exact ⟨h1, by exact_mod_cast h2⟩
    have hmem : ¬(packageSave (mkPackage today pw pc (some today) (some (today + 365)))
        today u).batch_number ∈ db.packages.map Package.batch_number := by
      rw [packageSave_batch_number]
      simpa [mkPackage] using hu
    refine ⟨packageSave (mkPackage today pw pc (some today) (some (today + 365))) today u, ?_, ?_⟩
    · simp only [createPackageView]
      rw [if_neg hq, if_neg (not_lt.mpr h3), if_neg hmem]
      simp
    · rw [totalWeight, packageSave_package_weight, packageSave_quantity]
      simp [mkPackage]


theorem claim_C1_create_contract_witness :
    batchNumberOf 0 ∉ demoDB.packages.map Package.batch_number ∧
    createPackageView demoDB (-1) 5 0 0 true = (.error .invalidQuantity, demoDB) :=
  ⟨by simp [demoDB],
   (claim_C1_create_contract demoDB (-1) 5 0 0 (by simp [demoDB])).1 (Or.inl (by norm_num))⟩

lemma create_ok_step {db : DB} {pw : ℚ} {pc today : ℤ} {u : Nat} {q : Bool}
    {pkg : Package} {db' : DB}
    (h : createPackageView db pw pc today u q = (.ok pkg, db')) :
    db'.product.weight = db.product.weight - totalWeight pkg ∧
    totalWeight pkg ≤ db.product.weight ∧
    db'.packages = pkg :: db.packages := by
  unfold createPackageView at h
  by_cases h1 : pw ≤ 0 ∨ pc ≤ 0
  · rw [if_pos h1] at h
    exact absurd h (by simp)
  · rw [if_neg h1] at h
    by_cases h2 : pw * (pc : ℚ) > db.product.weight
    · rw [if_pos h2] at h
      exact absurd h (by simp)
    · rw [if_neg h2] at h
      by_cases h3 : (packageSave (mkPackage today pw pc (some today) (some (today + 365)))
          today u).batch_number ∈ db.packages.map Package.batch_number
      · rw [if_pos h3] at h
        exact absurd h (by simp)
      · rw [if_neg h3] at h
        by_cases h4 : q = false
        · rw [if_pos h4] at h
          exact absurd h (by simp)
        · rw [if_neg h4] at h
          injection h with h5 h6
          injection h5 with h5
          subst h5
          subst h6
          have ht : totalWeight (packageSave
              (mkPackage today pw pc (some today) (some (today + 365))) today u) = pw * (pc : ℚ) := by
            rw [totalWeight, packageSave_package_weight, packageSave_quantity]
            simp [mkPackage]
          refine ⟨by simp [ht], ?_, rfl⟩
          rw [ht]
          exact not_lt.mp h2

/-- Claim C2: conservation. For every sequence of successful package
creations against one product, the initial available weight minus the sum of
the created packages' total weights equals the final available weight, and
(starting from a valid non-negative weight) the final value is >= 0. -/
theorem claim_C2_conservation (db : DB) (reqs : List (ℚ × ℤ × ℤ × Nat)) (db' : DB)
    (pkgs : List Package) (h : runCreates db reqs = some (db', pkgs))
    (h0 : 0 ≤ db.product.weight) :
    db.product.weight - (pkgs.map totalWeight).sum = db'.product.weight ∧
    0 ≤ db'.product.weight := by
  induction reqs generalizing db pkgs with
  | nil =>
    rw [runCreates] at h
    injection h with h
    injection h with h1 h2
    subst h1
    subst h2
    simpa using h0
  | cons r rest ih =>
    obtain ⟨pw, pc, today, u⟩ := r
    rw [runCreates] at h
    rcases heq : createPackageView db pw pc today u true with ⟨res, db1⟩
    rw [heq] at h
    cases res with
    | error e => simp at h
    | ok pkg =>
      simp only [Option.map_eq_some'] at h
      obtain ⟨⟨dbf, pkgs'⟩, hrun, hp⟩ := h
      injection hp with hp1 hp2
      subst hp1
      subst hp2
      obtain ⟨hw, hle, _⟩ := create_ok_step heq
      have h0' : 0 ≤ db1.product.weight := by rw [hw]; linarith
      obtain ⟨ihc, ihn⟩ := ih db1 pkgs' hrun h0'
      constructor
      · simp only [List.map_cons, List.sum_cons]
        rw [← ihc, hw]
        ring
      · exact ihn



theorem claim_C2_conservation_witness :
    demoDB.product.weight - ([demoPkg].map totalWeight).sum = demoDB2.product.weight ∧
    0 ≤ demoDB2.product.weight :=
  claim_C2_conservation demoDB [(5, 10, 0, 0)] demoDB2 [demoPkg]
    (by simp only [runCreates, demo_create_eq]; rfl)
    (by norm_num [demoDB, demoProduct])



lemma packageSave_qr_ne (pkg : Package) (today : ℤ) (u : Nat) :
    (packageSave pkg today u).qr_code ≠ none := by
  obtain ⟨pw, q, pd, ed, bn, qr⟩ := pkg
  by_cases hb : bn = "" <;> cases pd <;> cases ed <;> cases qr <;>
    simp [packageSave, generate_qr_code, hb]

lemma create_ok_shape {db : DB} {pw : ℚ} {pc today : ℤ} {u : Nat} {q : Bool}
    {pkg : Package} {db' : DB}
    (h : createPackageView db pw pc today u q = (.ok pkg, db')) :
    pkg = packageSave (mkPackage today pw pc (some today) (some (today + 365))) today u ∧
    pkg.batch_number ∉ db.packages.map Package.batch_number ∧
    db'.packages = pkg :: db.packages := by
  unfold createPackageView at h
  by_cases h1 : pw ≤ 0 ∨ pc ≤ 0
  · rw [if_pos h1] at h
    exact absurd h (by simp)
  · rw [if_neg h1] at h
    by_cases h2 : pw * (pc : ℚ) > db.product.weight
    · rw [if_pos h2] at h
      exact absurd h (by simp)
    · rw [if_neg h2] at h
      by_cases h3 : (packageSave (mkPackage today pw pc (some today) (some (today + 365)))
          today u).batch_number ∈ db.packages.map Package.batch_number
      · rw [if_pos h3] at h
        exact absurd h (by simp)
      · rw [if_neg h3] at h
        by_cases h4 : q = false
        · rw [if_pos h4] at h
          exact absurd h (by simp)
        · rw [if_neg h4] at h
          injection h with h5 h6
          injection h5 with h5
          subst h5
          subst h6
          exact ⟨rfl, h3, rfl⟩

lemma create_err_db {db : DB} {pw : ℚ} {pc today : ℤ} {u : Nat} {q : Bool}
    {e : CreateError} {db' : DB}
    (h : createPackageView db pw pc today u q = (.error e, db')) : db' = db := by
  unfold createPackageView at h
  by_cases h1 : pw ≤ 0 ∨ pc ≤ 0
  · rw [if_pos h1] at h
    injection h with _ h6
    exact h6.symm
  · rw [if_neg h1] at h
    by_cases h2 : pw * (pc : ℚ) > db.product.weight
    · rw [if_pos h2] at h
      injection h with _ h6
      exact h6.symm
    · rw [if_neg h2] at h
      by_cases h3 : (packageSave (mkPackage today pw pc (some today) (some (today + 365)))
          today u).batch_number ∈ db.packages.map Package.batch_number
      · rw [if_pos h3] at h
        injection h with _ h6
        exact h6.symm
      · rw [if_neg h3] at h
        by_cases h4 : q = false
        · rw [if_pos h4] at h
          injection h with _ h6
          exact h6.symm
        · rw [if_neg h4] at h
          exact absurd h (by simp)


/-- Claim C3 (code bug): the claim says concurrent creation requests
serialize — of two requests each needing 6 kg against a 10 kg product, at most
`⌊10/6⌋ = 1` may succeed. In the code the stock check compares against the
weight read before the transaction (no lock, no re-read), so under the
interleaving read-read-commit-commit BOTH requests succeed: 12 kg of packages
are deducted from a 10 kg product, and the stored weight ends at 4 (the second
writer's stale `10 - 6` overwrites the first). -/
theorem claim_C3_oversell_race :
    (runRace 6 6 10 staleInterleaving).done0 = some true ∧
    (runRace 6 6 10 staleInterleaving).done1 = some true ∧
    (runRace 6 6 10 staleInterleaving).deducted.sum = 12 ∧
    (runRace 6 6 10 staleInterleaving).weight = 4 ∧
    ⌊(10 : ℚ) / 6⌋ = 1 ∧ ¬((12 : ℚ) ≤ 10) := by
  norm_num [staleInterleaving, runRace, raceStep]


/-- Claim C4 counterexample: with the stock checks passing (total 50 against
weight 100) and QR artifact generation failing, the creation returns an error
and the database is exactly as before — no package row exists and the weight
is still 100 — contradicting the claim that the package row survives, with
inventory deducted, in a degraded state. -/
theorem claim_C4_counterexample :
    createPackageView demoDB 5 10 0 0 false = (.error .artifactFailed, demoDB) ∧
    demoDB.packages = [] ∧ demoDB.product.weight = 100 := by
  refine ⟨?_, rfl, by norm_num [demoDB, demoProduct]⟩
  simp only [createPackageView, demoDB, demoProduct]
  norm_num

lemma create_qrfail (db : DB) (pw : ℚ) (pc today : ℤ) (u : Nat) :
    ∃ e, createPackageView db pw pc today u false = (.error e, db) := by
  unfold createPackageView
  by_cases h1 : pw ≤ 0 ∨ pc ≤ 0
  · rw [if_pos h1]
    exact ⟨_, rfl⟩
  · rw [if_neg h1]
    by_cases h2 : pw * (pc : ℚ) > db.product.weight
    · rw [if_pos h2]
      exact ⟨_, rfl⟩
    · rw [if_neg h2]
      by_cases h3 : (packageSave (mkPackage today pw pc (some today) (some (today + 365)))
          today u).batch_number ∈ db.packages.map Package.batch_number
      · rw [if_pos h3]
        exact ⟨_, rfl⟩
      · rw [if_neg h3, if_pos rfl]
        exact ⟨_, rfl⟩

/-- Claim C4 (amended): QR artifact generation runs INSIDE the creation
transaction (`objects.create` invokes `ProductPackage.save`, which generates
the QR, inside `transaction.atomic`); if it fails, the whole creation is
rolled back — the database is unchanged and no package is returned — and on
success the returned package already carries its artifact. -/
theorem claim_C4_qr_in_transaction (db : DB) (pw : ℚ) (pc today : ℤ) (u : Nat) :
    ((createPackageView db pw pc today u false).2 = db ∧
      ∀ pkg, (createPackageView db pw pc today u false).1 ≠ .ok pkg) ∧
    (∀ pkg db', createPackageView db pw pc today u true = (.ok pkg, db') →
      pkg.qr_code ≠ none) := by
  refine ⟨?_, ?_⟩
  · obtain ⟨e, he⟩ := create_qrfail db pw pc today u
    rw [he]
    exact ⟨rfl, by simp⟩
  · intro pkg db' h
    rw [(create_ok_shape h).1]
    exact packageSave_qr_ne _ _ _


theorem claim_C4_qr_in_transaction_witness : demoPkg.qr_code ≠ none :=
  (claim_C4_qr_in_transaction demoDB 5 10 0 0).2 demoPkg demoDB2 demo_create_eq


/-- Claim C5 counterexample: when the single generated support code collides
with an existing product's code, `ShrimpProduct.save` surfaces the collision
to its caller (the insert is rejected by the unique constraint) — there is no
uniqueness check before acceptance and no regenerate-and-retry. -/
theorem claim_C5_counterexample :
    productSave [supportCodeOf 0] demoNewProduct 0 = .error .duplicateIdentifier := by
  simp [productSave, demoNewProduct]

/-- Claim C5 (amended): the generated support code is not checked against
existing products before acceptance and no retry exists; the single draw is
inserted as-is, the database's unique constraint rejects a collision and that
error surfaces to the caller; a successful save stores exactly the single
draw (or the pre-existing code, which is never reassigned). -/
theorem claim_C5_no_retry (existing : List String) (p : Product) (u : Nat) :
    (p.support_code = "" → supportCodeOf u ∈ existing →
      productSave existing p u = .error .duplicateIdentifier) ∧
    (∀ p', productSave existing p u = .ok p' →
      p'.support_code ∉ existing ∧
      (p.support_code = "" → p'.support_code = supportCodeOf u) ∧
      (p.support_code ≠ "" → p'.support_code = p.support_code)) := by
  constructor
  · intro h1 h2
    simp [productSave, h1, h2]
  · intro p' h
    unfold productSave at h
    by_cases h1 : p.support_code = ""
    · rw [if_pos h1] at h
      by_cases h2 : ({ p with support_code := supportCodeOf u } : Product).support_code ∈ existing
      · rw [if_pos h2] at h
        exact absurd h (by simp)
      · rw [if_neg h2] at h
        injection h with h
        subst h
        exact ⟨h2, fun _ => rfl, fun hne => absurd h1 hne⟩
    · rw [if_neg h1] at h
      by_cases h2 : p.support_code ∈ existing
      · rw [if_pos h2] at h
        exact absurd h (by simp)
      · rw [if_neg h2] at h
        injection h with h
        subst h
        exact ⟨h2, fun he => absurd he h1, fun _ => rfl⟩

theorem claim_C5_no_retry_witness :
    demoNewProduct.support_code = "" ∧ supportCodeOf 0 ∈ ["00000000"] ∧
    productSave ["00000000"] demoNewProduct 0 = .error .duplicateIdentifier :=
  ⟨rfl, by decide, (claim_C5_no_retry ["00000000"] demoNewProduct 0).1 rfl (by decide)⟩


/-- Claim C6 counterexample: a package created at clock day 100 with an
explicit production date of day 0 and no expiration date gets expiration day
465 (`today + 365`, from the field default `default_expiration_date`), which
is NOT production + 365 = 365 — the expiration default is a function of the
evaluation-time clock, not of the production date. -/
theorem claim_C6_counterexample :
    (packageSave (mkPackage 100 5 10 (some 0) none) 100 0).production_date = some 0 ∧
    (packageSave (mkPackage 100 5 10 (some 0) none) 100 0).expiration_date = some 465 ∧
    (465 : ℤ) ≠ 0 + 365 := by
  refine ⟨rfl, rfl, by norm_num⟩

/-- Claim C6 (amended): a package created with no explicit dates defaults
both dates from the same clock, so its expiration equals its production date
plus 365 days; but the expiration field default is `today + 365` — a function
of the evaluation-time clock — so a package with an explicit production date
and a defaulted expiration gets `today + 365` regardless of its production
date (the production-based `production + 365` rule in `save` applies only
when the expiration field is explicitly empty). -/
theorem claim_C6_expiration_default (today : ℤ) (pw : ℚ) (q : ℤ) (u : Nat) :
    ((packageSave (mkPackage today pw q none none) today u).production_date = some today ∧
     (packageSave (mkPackage today pw q none none) today u).expiration_date =
       some (today + 365)) ∧
    (∀ d : ℤ, (packageSave (mkPackage today pw q (some d) none) today u).expiration_date =
      some (default_expiration_date today)) :=
  ⟨mkPkg_dates today pw q u, fun d => mkPkg_dates2 today d pw q u⟩

/-- Claim C7: the minted batch number is `BATCH-` followed by exactly ten
uppercase alphanumeric characters; `ProductPackage.save` assigns it exactly
once (only when missing) and never reassigns an existing one; and a
successful creation against a table's distinct batch numbers keeps them
distinct (the `unique=True` constraint rejects colliding inserts). -/
theorem claim_C7_batch_number (u : Nat) (pkg : Package) (today : ℤ) :
    (∃ s : List Char, batchNumberOf u = "BATCH-" ++ String.mk s ∧ s.length = 10 ∧
      ∀ c ∈ s, isUpperAlnum c) ∧
    (pkg.batch_number = "" → (packageSave pkg today u).batch_number = batchNumberOf u) ∧
    (pkg.batch_number ≠ "" → (packageSave pkg today u).batch_number = pkg.batch_number) ∧
    (∀ (db : DB) (pw : ℚ) (pc t : ℤ) (q : Bool) (pkg' : Package) (db' : DB),
      (db.packages.map Package.batch_number).Nodup →
      createPackageView db pw pc t u q = (.ok pkg', db') →
      (db'.packages.map Package.batch_number).Nodup) := by
  refine ⟨⟨((uuidHexChars u).take 10).map Char.toUpper, rfl,
      batchNumberOf_suffix_length u, ?_⟩, ?_, ?_, ?_⟩
  · intro c hc
    exact hexUpper_upperAlnum c (batchNumberOf_suffix_chars hc)
  · intro h
    rw [packageSave_batch_number, if_pos h]
  · intro h
    rw [packageSave_batch_number, if_neg h]
  · intro db pw pc t q pkg' db' hnd h
    obtain ⟨_, hfresh, hpkgs⟩ := create_ok_shape h
    rw [hpkgs, List.map_cons, List.nodup_cons]
    exact ⟨hfresh, hnd⟩

theorem claim_C7_batch_number_witness :
    (mkPackage 0 5 10 (some 0) (some 365)).batch_number = "" ∧
    (packageSave (mkPackage 0 5 10 (some 0) (some 365)) 0 0).batch_number = batchNumberOf 0 :=
  ⟨rfl, (claim_C7_batch_number 0 (mkPackage 0 5 10 (some 0) (some 365)) 0).2.1 rfl⟩


/-- Claim C8 counterexample: `EditProductView.post` stores the submitted
weight with no validation, so an edit can drive a product's available weight
negative — the invariant `availableWeight >= 0` does NOT hold across every
operation that can modify a product. -/
theorem claim_C8_counterexample :
    (editProduct demoProduct "P" (-5) 1).weight < 0 := by
  norm_num [editProduct, demoProduct]

/-- Claim C8 (amended): along the package-creation path the available weight
stays non-negative (the stock check deducts only when the total fits), but
the product-edit endpoint writes the submitted weight unvalidated and can
store a negative value. -/
theorem claim_C8_creation_nonneg (db : DB) (pw : ℚ) (pc today : ℤ) (u : Nat)
    (q : Bool) (h0 : 0 ≤ db.product.weight) :
    0 ≤ ((createPackageView db pw pc today u q).2).product.weight := by
  unfold createPackageView
  by_cases h1 : pw ≤ 0 ∨ pc ≤ 0
  · rw [if_pos h1]
    exact h0
  · rw [if_neg h1]
    by_cases h2 : pw * (pc : ℚ) > db.product.weight
    · rw [if_pos h2]
      exact h0
    · rw [if_neg h2]
      by_cases h3 : (packageSave (mkPackage today pw pc (some today) (some (today + 365)))
          today u).batch_number ∈ db.packages.map Package.batch_number
      · rw [if_pos h3]
        exact h0
      · rw [if_neg h3]
        by_cases h4 : q = false
        · rw [if_pos h4]
          exact h0
        · rw [if_neg h4]
          have := not_lt.mp h2
          show 0 ≤ db.product.weight - pw * (pc : ℚ)
          linarith

theorem claim_C8_creation_nonneg_witness :
    (0 : ℚ) ≤ demoDB.product.weight ∧
    0 ≤ ((createPackageView demoDB 5 10 0 0 true).2).product.weight :=
  ⟨by norm_num [demoDB, demoProduct],
   claim_C8_creation_nonneg demoDB 5 10 0 0 true (by norm_num [demoDB, demoProduct])⟩

/-- Claim C9: saving a package whose QR artifact already exists leaves the
artifact exactly as it was (no regeneration at the model layer), and an
explicit `generate_qr_code` call changes only the `qr_code` field — batch
number, weights, quantity and dates are untouched, and a regenerate action
never touches the product row (inventory). -/
theorem claim_C9_qr_idempotent (pkg : Package) (today : ℤ) (u : Nat)
    (db : DB) (b : String) :
    (pkg.qr_code ≠ none → (packageSave pkg today u).qr_code = pkg.qr_code) ∧
    ((generate_qr_code pkg).batch_number = pkg.batch_number ∧
     (generate_qr_code pkg).package_weight = pkg.package_weight ∧
     (generate_qr_code pkg).quantity = pkg.quantity ∧
     (generate_qr_code pkg).production_date = pkg.production_date ∧
     (generate_qr_code pkg).expiration_date = pkg.expiration_date) ∧
    (regenerateQr db b).product = db.product :=
  ⟨packageSave_qr_of_some pkg today u, ⟨rfl, rfl, rfl, rfl, rfl⟩, rfl⟩

theorem claim_C9_qr_idempotent_witness :
    (Package.mk 1 1 (some 0) (some 365) "B" (some "x")).qr_code ≠ none ∧
    (packageSave (Package.mk 1 1 (some 0) (some 365) "B" (some "x")) 0 0).qr_code =
      some "x" :=
  ⟨by simp,
   (claim_C9_qr_idempotent (Package.mk 1 1 (some 0) (some 365) "B" (some "x"))
      0 0 demoDB "B").1 (by simp)⟩

/-- Claim C10: every character of a generated support code, and of the part
of a generated batch number after `BATCH-`, is an uppercase hexadecimal digit
— a strict subset of the uppercase alphanumerics — so the letters G through Z
never occur in generated identifiers. -/
theorem claim_C10_hex_alphabet (u : Nat) :
    (∀ c ∈ (supportCodeOf u).data, c ∈ hexUpperChars) ∧
    (∃ s : List Char, batchNumberOf u = "BATCH-" ++ String.mk s ∧
      ∀ c ∈ s, c ∈ hexUpperChars) ∧
    (∀ c ∈ hexUpperChars, isUpperAlnum c ∧ ¬('G' ≤ c ∧ c ≤ 'Z')) :=
  ⟨fun _ hc => supportCodeOf_chars hc,
   ⟨((uuidHexChars u).take 10).map Char.toUpper, rfl,
    fun _ hc => batchNumberOf_suffix_chars hc⟩,
   fun c hc => ⟨hexUpper_upperAlnum c hc, hexUpper_not_GZ c hc⟩⟩

theorem claim_C10_hex_alphabet_witness :
    '0' ∈ (supportCodeOf 0).data ∧ '0' ∈ hexUpperChars :=
  ⟨by decide, (claim_C10_hex_alphabet 0).1 '0' (by decide)⟩

end ShrimpShop
